import Mathlib

/-!
Verification development for the retirement-calculator projection engine
(`calculations` module).  The TypeScript source works on IEEE doubles; we
embed the arithmetic over `ℚ`, which preserves the exact algebraic
structure of every formula (all exponents in the source are integers).
Ages are whole years and are embedded as `ℤ`; every other numeric field
is `ℚ`.  The ambient `new Date().getFullYear()` is frozen as a constant,
and the Monte Carlo sampler takes its uniform draws as an explicit list
(one draw per trial, so `iterations = draws.length`).
-/

/-- Input parameter record (`CalculatorInputs`). -/
structure CalculatorInputs where
  currentAge : ℤ
  retirementAge : ℤ
  lifeExpectancy : ℤ
  currentSalary : ℚ
  salaryGrowthRate : ℚ
  currentSavings : ℚ
  monthlyContribution : ℚ
  contributionIncreaseRate : ℚ
  employerMatchPercent : ℚ
  employerMatchLimit : ℚ
  expectedReturn : ℚ
  inflationRate : ℚ
  taxRate : ℚ
  retirementTaxRate : ℚ
  desiredRetirementIncome : ℚ
  socialSecurityBenefit : ℚ
  deriving Repr, DecidableEq

/-- One record per simulated year (`YearlyProjection`). -/
structure YearlyProjection where
  age : ℤ
  year : ℤ
  salary : ℚ
  monthlyContribution : ℚ
  employerMatch : ℚ
  totalContribution : ℚ
  totalSavings : ℚ
  totalSavingsInflationAdjusted : ℚ
  interestEarned : ℚ
  deriving Repr, DecidableEq

instance : Inhabited YearlyProjection :=
  ⟨{ age := 0, year := 0, salary := 0, monthlyContribution := 0, employerMatch := 0,
     totalContribution := 0, totalSavings := 0, totalSavingsInflationAdjusted := 0,
     interestEarned := 0 }⟩

/-- Result record of the projector (`ProjectionResults`). -/
structure ProjectionResults where
  yearlyData : List YearlyProjection
  retirementValue : ℚ
  retirementValueInflationAdjusted : ℚ
  monthlyRetirementIncome : ℚ
  monthlyRetirementIncomeInflationAdjusted : ℚ
  totalContributions : ℚ
  totalInterestEarned : ℚ
  yearsOfRetirement : ℤ
  retirementShortfall : ℚ
  recommendedMonthlySavings : ℚ
  replacementRatio : ℚ
  deriving Repr, DecidableEq

/-- Three projections under preset assumptions (`ScenarioComparison`). -/
structure ScenarioComparison where
  conservative : ProjectionResults
  moderate : ProjectionResults
  aggressive : ProjectionResults
  deriving Repr, DecidableEq

/-- Summary record returned by `monteCarloSimulation`. -/
structure MonteCarloSummary where
  median : ℚ
  percentile25 : ℚ
  percentile75 : ℚ
  percentile95 : ℚ
  successRate : ℚ
  deriving Repr, DecidableEq

/-- Allocation record returned by `optimizeContributions`. -/
structure OptimizationResult where
  optimal401k : ℚ
  optimalRothIRA : ℚ
  optimalTaxable : ℚ
  totalTaxSavings : ℚ
  deriving Repr, DecidableEq

/-- `futureValue(principal, monthlyPayment, annualRate, years)`. -/
def futureValue (principal monthlyPayment annualRate : ℚ) (years : ℤ) : ℚ :=
  let monthlyRate := annualRate / 12
  let months := years * 12
  if monthlyRate = 0 then
    principal + monthlyPayment * (months : ℚ)
  else
    let futureValueOfPrincipal := principal * (1 + monthlyRate) ^ months
    let futureValueOfPayments := monthlyPayment * (((1 + monthlyRate) ^ months - 1) / monthlyRate)
    futureValueOfPrincipal + futureValueOfPayments

/-- `presentValue(futureValue, annualRate, years)`. -/
def presentValue (fv annualRate : ℚ) (years : ℤ) : ℚ :=
  if annualRate = 0 then fv else fv / (1 + annualRate) ^ years

/-- `inflationAdjustedValue(amount, inflationRate, years)`. -/
def inflationAdjustedValue (amount inflationRate : ℚ) (years : ℤ) : ℚ :=
  amount / (1 + inflationRate) ^ years

/-- `sustainableWithdrawalRate(totalSavings, yearsInRetirement, annualReturn)`.
In the source a zero denominator yields `Infinity`/`NaN`; over `ℚ` division
by zero yields `0`.  No claim exercises that corner. -/
def sustainableWithdrawalRate (totalSavings : ℚ) (yearsInRetirement : ℤ)
    (annualReturn : ℚ) : ℚ :=
  if annualReturn = 0 then
    totalSavings / ((yearsInRetirement : ℚ) * 12)
  else
    let monthlyRate := annualReturn / 12
    let months := yearsInRetirement * 12
    (totalSavings * monthlyRate) / (1 - (1 + monthlyRate) ^ (-months))

/-- `salaryProjection(currentSalary, growthRate, years)`. -/
def salaryProjection (currentSalary growthRate : ℚ) (years : ℤ) : ℚ :=
  currentSalary * (1 + growthRate) ^ years

/-- `taxAdjustedContribution(grossContribution, taxRate, isPreTax)`. -/
def taxAdjustedContribution (grossContribution taxRate : ℚ) (isPreTax : Bool) : ℚ :=
  if isPreTax then grossContribution * (1 - taxRate) else grossContribution

/-- `calculateEmployerMatch(monthlySalary, employeeContribution, matchPercent, matchLimit)`. -/
def calculateEmployerMatch (monthlySalary employeeContribution matchPercent matchLimit : ℚ) : ℚ :=
  let maxMatchAmount := monthlySalary * matchLimit
  let matchAmount := employeeContribution * matchPercent
  min matchAmount maxMatchAmount

/-- `calculateRequiredSavings(targetAmount, currentSavings, annualReturn, years, inflationRate)`. -/
def calculateRequiredSavings (targetAmount currentSavings annualReturn : ℚ) (years : ℤ)
    (inflationRate : ℚ) : ℚ :=
  let realReturn := (1 + annualReturn) / (1 + inflationRate) - 1
  let monthlyRate := realReturn / 12
  let months := years * 12
  if monthlyRate = 0 then
    (targetAmount - currentSavings) / ((months : ℚ))
  else
    let futureValueOfCurrent := currentSavings * (1 + monthlyRate) ^ months
    let remainingNeeded := targetAmount - futureValueOfCurrent
    if remainingNeeded ≤ 0 then 0
    else remainingNeeded * monthlyRate / ((1 + monthlyRate) ^ months - 1)

/-- `calculateSocialSecurity(averageIndexedMonthlyEarnings, fullRetirementAge, claimingAge)`. -/
def calculateSocialSecurity (averageIndexedMonthlyEarnings fullRetirementAge claimingAge : ℚ) : ℚ :=
  let bend1 : ℚ := 1174
  let bend2 : ℚ := 7078
  let primaryInsuranceAmount : ℚ :=
    if averageIndexedMonthlyEarnings ≤ bend1 then
      averageIndexedMonthlyEarnings * 0.9
    else if averageIndexedMonthlyEarnings ≤ bend2 then
      bend1 * 0.9 + (averageIndexedMonthlyEarnings - bend1) * 0.32
    else
      bend1 * 0.9 + (bend2 - bend1) * 0.32 + (averageIndexedMonthlyEarnings - bend2) * 0.15
  let monthsEarly := (fullRetirementAge - claimingAge) * 12
  let monthsLate := (claimingAge - fullRetirementAge) * 12
  if 0 < monthsEarly then
    let reduction := min 36 monthsEarly * 0.00555 + max 0 (monthsEarly - 36) * 0.00417
    primaryInsuranceAmount * (1 - reduction)
  else if 0 < monthsLate then
    let increase := monthsLate * 0.00667
    primaryInsuranceAmount * (1 + increase)
  else
    primaryInsuranceAmount

/-- `optimizeContributions(inputs, target401k, targetRothIRA, targetTaxable)`. -/
def optimizeContributions (inputs : CalculatorInputs)
    (target401k targetRothIRA targetTaxable : ℚ) : OptimizationResult :=
  let max401k : ℚ := 23000 / 12
  let maxRothIRA : ℚ := 7000 / 12
  let optimal401k := min target401k max401k
  let optimalRothIRA := min targetRothIRA maxRothIRA
  let optimalTaxable := targetTaxable
  let taxSavings401k := optimal401k * 12 * inputs.taxRate
  { optimal401k := optimal401k, optimalRothIRA := optimalRothIRA,
    optimalTaxable := optimalTaxable, totalTaxSavings := taxSavings401k }

/-- Frozen value of the ambient `new Date().getFullYear()` used by the projector. -/
def currentYearAD : ℤ := 2025

/-- `retirementAge - currentAge`, the loop bound of the projector. -/
def yearsToRetirement (inputs : CalculatorInputs) : ℤ :=
  inputs.retirementAge - inputs.currentAge

/-- Salary used in loop iteration `year`: the base salary at `year = 0`,
`salaryProjection` of the original base otherwise. -/
def salaryAt (inputs : CalculatorInputs) (year : ℕ) : ℚ :=
  if year = 0 then inputs.currentSalary
  else salaryProjection inputs.currentSalary inputs.salaryGrowthRate (year : ℤ)

/-- Monthly contribution used in loop iteration `year`: the base value at
`year = 0`, the base compounded by `(1 + increaseRate) ^ year` otherwise. -/
def monthlyContributionAt (inputs : CalculatorInputs) (year : ℕ) : ℚ :=
  if year = 0 then inputs.monthlyContribution
  else inputs.monthlyContribution * (1 + inputs.contributionIncreaseRate) ^ year

/-- `monthlyEmployerMatch` of loop iteration `year`. -/
def monthlyEmployerMatchAt (inputs : CalculatorInputs) (year : ℕ) : ℚ :=
  calculateEmployerMatch (salaryAt inputs year / 12) (monthlyContributionAt inputs year)
    inputs.employerMatchPercent inputs.employerMatchLimit

/-- `annualContribution` of loop iteration `year` (employee + employer, annualized). -/
def annualContributionAt (inputs : CalculatorInputs) (year : ℕ) : ℚ :=
  (monthlyContributionAt inputs year + monthlyEmployerMatchAt inputs year) * 12

/-- Value of the `totalSavings` loop variable after `n` iterations of the
projection loop (so `totalSavingsAfter inputs 0 = currentSavings`). -/
def totalSavingsAfter (inputs : CalculatorInputs) : ℕ → ℚ
  | 0 => inputs.currentSavings
  | year + 1 =>
    let previousBalance := totalSavingsAfter inputs year
    let interestEarned := previousBalance * inputs.expectedReturn
    previousBalance + annualContributionAt inputs year + interestEarned

/-- The `YearlyProjection` record pushed in loop iteration `year`. -/
def projEntry (inputs : CalculatorInputs) (year : ℕ) : YearlyProjection :=
  let previousBalance := totalSavingsAfter inputs year
  let interestEarned := previousBalance * inputs.expectedReturn
  let annualContribution := annualContributionAt inputs year
  let totalSavings := previousBalance + annualContribution + interestEarned
  { age := inputs.currentAge + year,
    year := currentYearAD + year,
    salary := salaryAt inputs year,
    monthlyContribution := monthlyContributionAt inputs year,
    employerMatch := monthlyEmployerMatchAt inputs year,
    totalContribution := annualContribution,
    totalSavings := totalSavings,
    totalSavingsInflationAdjusted :=
      inflationAdjustedValue totalSavings inputs.inflationRate year,
    interestEarned := interestEarned }

/-- Number of iterations of `for (year = 0; year <= yearsToRetirement; year++)`. -/
def iterCount (inputs : CalculatorInputs) : ℕ :=
  if yearsToRetirement inputs < 0 then 0 else (yearsToRetirement inputs).toNat + 1

/-- `calculateProjections(inputs)`.  The mutable loop of the source is
decomposed: the pushed records are `projEntry` over the iteration range and
the running totals are the corresponding range sums. -/
def calculateProjections (inputs : CalculatorInputs) : ProjectionResults :=
  let yearsToRet := yearsToRetirement inputs
  let yearsOfRetirement := inputs.lifeExpectancy - inputs.retirementAge
  let yearlyData := (List.range (iterCount inputs)).map (projEntry inputs)
  let retirementValue := totalSavingsAfter inputs (iterCount inputs)
  let totalContributions :=
    ((List.range (iterCount inputs)).map (annualContributionAt inputs)).sum
  let totalInterestEarned :=
    ((List.range (iterCount inputs)).map
      (fun year => totalSavingsAfter inputs year * inputs.expectedReturn)).sum
  let retirementValueInflationAdjusted :=
    inflationAdjustedValue retirementValue inputs.inflationRate yearsToRet
  let monthlyRetirementIncome :=
    sustainableWithdrawalRate retirementValue yearsOfRetirement
      (inputs.expectedReturn * 0.5) + inputs.socialSecurityBenefit
  let monthlyRetirementIncomeInflationAdjusted :=
    inflationAdjustedValue monthlyRetirementIncome inputs.inflationRate yearsToRet
  let finalSalary := salaryProjection inputs.currentSalary inputs.salaryGrowthRate yearsToRet
  let replacementRatio := monthlyRetirementIncome * 12 / finalSalary
  let desiredAnnualIncome := inputs.desiredRetirementIncome * 12
  let actualAnnualIncome := monthlyRetirementIncome * 12
  let retirementShortfall := max 0 (desiredAnnualIncome - actualAnnualIncome)
  let recommendedMonthlySavings :=
    if 0 < retirementShortfall then
      calculateRequiredSavings (retirementShortfall * (yearsOfRetirement : ℚ) + retirementValue)
        inputs.currentSavings inputs.expectedReturn yearsToRet inputs.inflationRate
    else inputs.monthlyContribution
  { yearlyData := yearlyData,
    retirementValue := retirementValue,
    retirementValueInflationAdjusted := retirementValueInflationAdjusted,
    monthlyRetirementIncome := monthlyRetirementIncome,
    monthlyRetirementIncomeInflationAdjusted := monthlyRetirementIncomeInflationAdjusted,
    totalContributions := totalContributions,
    totalInterestEarned := totalInterestEarned,
    yearsOfRetirement := yearsOfRetirement,
    retirementShortfall := retirementShortfall,
    recommendedMonthlySavings := recommendedMonthlySavings,
    replacementRatio := replacementRatio }

/-- `calculateScenarios(baseInputs)`. -/
def calculateScenarios (baseInputs : CalculatorInputs) : ScenarioComparison :=
  let conservativeInputs := { baseInputs with expectedReturn := 0.04, inflationRate := 0.035 }
  let moderateInputs := { baseInputs with expectedReturn := 0.07, inflationRate := 0.03 }
  let aggressiveInputs := { baseInputs with expectedReturn := 0.10, inflationRate := 0.025 }
  { conservative := calculateProjections conservativeInputs,
    moderate := calculateProjections moderateInputs,
    aggressive := calculateProjections aggressiveInputs }

/-- One Monte Carlo trial: perturb the expected return by the uniform draw
`u` and record the terminal nominal balance. -/
def monteCarloTrial (inputs : CalculatorInputs) (u : ℚ) : ℚ :=
  let volatility : ℚ := 0.15
  let randomReturn := inputs.expectedReturn + (u - 0.5) * volatility
  (calculateProjections { inputs with expectedReturn := randomReturn }).retirementValue

/-- `Math.floor(iterations * p)` as used for percentile extraction. -/
def percentileIndex (iterations : ℕ) (p : ℚ) : ℕ :=
  (⌊(iterations : ℚ) * p⌋).toNat

/-- `monteCarloSimulation(inputs, iterations)`, with the ambient uniform
random source made explicit: `draws` supplies one uniform draw per trial,
so `iterations = draws.length`. -/
def monteCarloSimulation (inputs : CalculatorInputs) (draws : List ℚ) : MonteCarloSummary :=
  let iterations := draws.length
  let targetAmount := inputs.desiredRetirementIncome * 12 *
    (((inputs.lifeExpectancy - inputs.retirementAge : ℤ)) : ℚ)
  let results := (draws.map (monteCarloTrial inputs)).insertionSort (· ≤ ·)
  let successCount := (results.filter (fun value => targetAmount ≤ value)).length
  { median := results.getD (percentileIndex iterations 0.5) 0,
    percentile25 := results.getD (percentileIndex iterations 0.25) 0,
    percentile75 := results.getD (percentileIndex iterations 0.75) 0,
    percentile95 := results.getD (percentileIndex iterations 0.95) 0,
    successRate := (successCount : ℚ) / (iterations : ℚ) }

/-- A fixed sample input record used by the concrete witnesses
(`retirementAge = currentAge`, so the projection loop runs once). -/
def sampleInputs : CalculatorInputs :=
  { currentAge := 30, retirementAge := 30, lifeExpectancy := 31,
    currentSalary := 1200, salaryGrowthRate := 0, currentSavings := 1000,
    monthlyContribution := 100, contributionIncreaseRate := 0,
    employerMatchPercent := 0, employerMatchLimit := 0,
    expectedReturn := 0, inflationRate := 0, taxRate := 0.22,
    retirementTaxRate := 0.15, desiredRetirementIncome := 0,
    socialSecurityBenefit := 0 }

/-- A second sample record with a one-year horizon (the loop runs twice). -/
def sampleInputs2 : CalculatorInputs :=
  { sampleInputs with retirementAge := 31, lifeExpectancy := 32 }

lemma totalSavingsAfter_one (inputs : CalculatorInputs) :
    totalSavingsAfter inputs 1 =
      inputs.currentSavings + annualContributionAt inputs 0 +
        inputs.currentSavings * inputs.expectedReturn := rfl

lemma totalSavingsAfter_two (inputs : CalculatorInputs) :
    totalSavingsAfter inputs 2 =
      totalSavingsAfter inputs 1 + annualContributionAt inputs 1 +
        totalSavingsAfter inputs 1 * inputs.expectedReturn := rfl

lemma getD_range_map {α : Type} (f : ℕ → α) (c y : ℕ) (d : α) (h : y < c) :
    ((List.range c).map f).getD y d = f y := by
  rw [List.getD_eq_getElem _ d (by simpa using h)]
  simp [List.getElem_map, List.getElem_range]

lemma calculateProjections_yearlyData (inputs : CalculatorInputs) :
    (calculateProjections inputs).yearlyData =
      (List.range (iterCount inputs)).map (projEntry inputs) := rfl

lemma calculateProjections_retirementValue (inputs : CalculatorInputs) :
    (calculateProjections inputs).retirementValue =
      totalSavingsAfter inputs (iterCount inputs) := rfl

lemma calculateProjections_totalContributions (inputs : CalculatorInputs) :
    (calculateProjections inputs).totalContributions =
      ((List.range (iterCount inputs)).map (annualContributionAt inputs)).sum := rfl

lemma calculateProjections_totalInterestEarned (inputs : CalculatorInputs) :
    (calculateProjections inputs).totalInterestEarned =
      ((List.range (iterCount inputs)).map
        (fun year => totalSavingsAfter inputs year * inputs.expectedReturn)).sum := rfl

lemma calculateProjections_monthlyRetirementIncome (inputs : CalculatorInputs) :
    (calculateProjections inputs).monthlyRetirementIncome =
      sustainableWithdrawalRate (totalSavingsAfter inputs (iterCount inputs))
        (inputs.lifeExpectancy - inputs.retirementAge) (inputs.expectedReturn * 0.5) +
      inputs.socialSecurityBenefit := rfl

lemma calculateProjections_retirementShortfall (inputs : CalculatorInputs) :
    (calculateProjections inputs).retirementShortfall =
      max 0 (inputs.desiredRetirementIncome * 12 -
        (calculateProjections inputs).monthlyRetirementIncome * 12) := rfl

lemma calculateProjections_recommendedMonthlySavings (inputs : CalculatorInputs) :
    (calculateProjections inputs).recommendedMonthlySavings =
      if 0 < (calculateProjections inputs).retirementShortfall then
        calculateRequiredSavings
          ((calculateProjections inputs).retirementShortfall *
              ((inputs.lifeExpectancy - inputs.retirementAge : ℤ) : ℚ) +
            (calculateProjections inputs).retirementValue)
          inputs.currentSavings inputs.expectedReturn (yearsToRetirement inputs)
          inputs.inflationRate
      else inputs.monthlyContribution := rfl

lemma iterCount_eq (inputs : CalculatorInputs) (h : inputs.currentAge ≤ inputs.retirementAge) :
    iterCount inputs = (inputs.retirementAge - inputs.currentAge).toNat + 1 := by
  have hn : ¬ yearsToRetirement inputs < 0 := by
    unfold yearsToRetirement; omega
  unfold iterCount
  rw [if_neg hn]
  rfl

/-- C2: for an input record with `retirementAge ≥ currentAge`, the yearly
sequence returned by `calculateProjections` has length exactly
`retirementAge - currentAge + 1`; in particular it has length 1 when
`retirementAge = currentAge`. -/
theorem yearlyData_length_eq (inputs : CalculatorInputs)
    (h : inputs.currentAge ≤ inputs.retirementAge) :
    (calculateProjections inputs).yearlyData.length =
      (inputs.retirementAge - inputs.currentAge).toNat + 1 ∧
    (inputs.retirementAge = inputs.currentAge →
      (calculateProjections inputs).yearlyData.length = 1) := by
  have hlen : (calculateProjections inputs).yearlyData.length = iterCount inputs := by
    rw [calculateProjections_yearlyData, List.length_map, List.length_range]
  refine ⟨?_, ?_⟩
  · rw [hlen, iterCount_eq inputs h]
  · intro he
    rw [hlen, iterCount_eq inputs h, he]
    simp

/-- Witness for C2 at a concrete input record. -/
theorem yearlyData_length_eq_witness :
    sampleInputs.currentAge ≤ sampleInputs.retirementAge ∧
    (calculateProjections sampleInputs).yearlyData.length =
      (sampleInputs.retirementAge - sampleInputs.currentAge).toNat + 1 :=
  ⟨by norm_num [sampleInputs], (yearlyData_length_eq sampleInputs (by norm_num [sampleInputs])).1⟩

/-- C3: the shortfall reported by `calculateProjections` is never negative,
and whenever the computed monthly retirement income meets or exceeds the
desired retirement income the recommended monthly savings is the input's
`monthlyContribution` unchanged. -/
theorem retirementShortfall_nonneg_and_recommended_collapse (inputs : CalculatorInputs) :
    0 ≤ (calculateProjections inputs).retirementShortfall ∧
    (inputs.desiredRetirementIncome ≤ (calculateProjections inputs).monthlyRetirementIncome →
      (calculateProjections inputs).recommendedMonthlySavings = inputs.monthlyContribution) := by
  refine ⟨?_, ?_⟩
  · rw [calculateProjections_retirementShortfall]
    exact le_max_left _ _
  · intro h
    have hzero : (calculateProjections inputs).retirementShortfall = 0 := by
      rw [calculateProjections_retirementShortfall]
      have h12 : inputs.desiredRetirementIncome * 12 ≤
          (calculateProjections inputs).monthlyRetirementIncome * 12 := by
        nlinarith
      exact max_eq_left (by linarith)
    rw [calculateProjections_recommendedMonthlySavings, hzero]
    simp

/-- Witness for C3 at a concrete input record. -/
theorem retirementShortfall_nonneg_and_recommended_collapse_witness :
    0 ≤ (calculateProjections sampleInputs).retirementShortfall ∧
    (calculateProjections sampleInputs).recommendedMonthlySavings =
      sampleInputs.monthlyContribution := by
  have hinc : sampleInputs.desiredRetirementIncome ≤
      (calculateProjections sampleInputs).monthlyRetirementIncome := by
    rw [calculateProjections_monthlyRetirementIncome,
      show iterCount sampleInputs = 1 from by norm_num [iterCount, yearsToRetirement, sampleInputs],
      totalSavingsAfter_one]
    norm_num [sampleInputs, sustainableWithdrawalRate, annualContributionAt,
      monthlyEmployerMatchAt, monthlyContributionAt, salaryAt, calculateEmployerMatch]
  exact ⟨(retirementShortfall_nonneg_and_recommended_collapse sampleInputs).1,
    (retirementShortfall_nonneg_and_recommended_collapse sampleInputs).2 hinc⟩

lemma totalSavingsAfter_succ (inputs : CalculatorInputs) (y : ℕ) :
    totalSavingsAfter inputs (y + 1) =
      totalSavingsAfter inputs y + annualContributionAt inputs y +
        totalSavingsAfter inputs y * inputs.expectedReturn := rfl

lemma annualContributionAt_update (i : CalculatorInputs) (t : ℚ) :
    annualContributionAt { i with retirementTaxRate := t } = annualContributionAt i :=
  funext fun _ => rfl

lemma yearsToRetirement_update (i : CalculatorInputs) (t : ℚ) :
    yearsToRetirement { i with retirementTaxRate := t } = yearsToRetirement i := rfl

lemma iterCount_update (i : CalculatorInputs) (t : ℚ) :
    iterCount { i with retirementTaxRate := t } = iterCount i := rfl

lemma totalSavingsAfter_update (i : CalculatorInputs) (t : ℚ) :
    totalSavingsAfter { i with retirementTaxRate := t } = totalSavingsAfter i := by
  funext k
  induction k with
  | zero => rfl
  | succ y ih =>
    rw [totalSavingsAfter_succ, totalSavingsAfter_succ, ih, annualContributionAt_update]

lemma salaryAt_update (i : CalculatorInputs) (t : ℚ) :
    salaryAt { i with retirementTaxRate := t } = salaryAt i :=
  funext fun _ => rfl

lemma monthlyContributionAt_update (i : CalculatorInputs) (t : ℚ) :
    monthlyContributionAt { i with retirementTaxRate := t } = monthlyContributionAt i :=
  funext fun _ => rfl

lemma monthlyEmployerMatchAt_update (i : CalculatorInputs) (t : ℚ) :
    monthlyEmployerMatchAt { i with retirementTaxRate := t } = monthlyEmployerMatchAt i :=
  funext fun _ => rfl

lemma projEntry_update (i : CalculatorInputs) (t : ℚ) :
    projEntry { i with retirementTaxRate := t } = projEntry i := by
  funext y
  simp only [projEntry, totalSavingsAfter_update, annualContributionAt_update,
    salaryAt_update, monthlyContributionAt_update, monthlyEmployerMatchAt_update]

lemma calculateProjections_update (i : CalculatorInputs) (t : ℚ) :
    calculateProjections { i with retirementTaxRate := t } = calculateProjections i := by
  simp only [calculateProjections, projEntry_update, totalSavingsAfter_update,
    annualContributionAt_update, iterCount_update, yearsToRetirement_update]

lemma scenarioInputs_update (i : CalculatorInputs) (t er ir : ℚ) :
    ({ { i with retirementTaxRate := t } with
        expectedReturn := er, inflationRate := ir } : CalculatorInputs) =
      { { i with expectedReturn := er, inflationRate := ir } with
        retirementTaxRate := t } := rfl

lemma calculateScenarios_update (i : CalculatorInputs) (t : ℚ) :
    calculateScenarios { i with retirementTaxRate := t } = calculateScenarios i := by
  simp only [calculateScenarios]
  congr 1
  · exact calculateProjections_update
      { i with expectedReturn := (0.04 : ℚ), inflationRate := (0.035 : ℚ) } t
  · exact calculateProjections_update
      { i with expectedReturn := (0.07 : ℚ), inflationRate := (0.03 : ℚ) } t
  · exact calculateProjections_update
      { i with expectedReturn := (0.10 : ℚ), inflationRate := (0.025 : ℚ) } t

/-- C9: `retirementTaxRate` is dead data: changing only that field leaves
the results of `calculateProjections`, `calculateScenarios` and
`optimizeContributions` (at the same three targets) unchanged. -/
theorem retirementTaxRate_dead (i : CalculatorInputs) (t a b c : ℚ) :
    calculateProjections { i with retirementTaxRate := t } = calculateProjections i ∧
    calculateScenarios { i with retirementTaxRate := t } = calculateScenarios i ∧
    optimizeContributions { i with retirementTaxRate := t } a b c =
      optimizeContributions i a b c :=
  ⟨calculateProjections_update i t, calculateScenarios_update i t, rfl⟩

lemma salaryAt_eq (i : CalculatorInputs) (y : ℕ) :
    salaryAt i y = i.currentSalary * (1 + i.salaryGrowthRate) ^ y := by
  cases y with
  | zero => simp [salaryAt]
  | succ n =>
    rw [show salaryAt i (n + 1) =
        salaryProjection i.currentSalary i.salaryGrowthRate ((n + 1 : ℕ) : ℤ) from rfl]
    rw [salaryProjection, zpow_natCast]

lemma monthlyContributionAt_eq (i : CalculatorInputs) (y : ℕ) :
    monthlyContributionAt i y =
      i.monthlyContribution * (1 + i.contributionIncreaseRate) ^ y := by
  cases y with
  | zero => simp [monthlyContributionAt]
  | succ n => simp [monthlyContributionAt]

/-- C1: each entry of the yearly sequence satisfies the reference
recurrence: salary and monthly contribution are the base values compounded
from the original inputs (`year 0` = base), the employer match is
`calculateEmployerMatch` on that year's values, the annual contribution is
`12 * (employee + employer)`, the interest is the opening balance
(`currentSavings` at year 0, the previous entry's closing balance
otherwise) times `expectedReturn`, and the closing balance is opening +
annual contribution + interest. -/
theorem projection_reference_recurrence (i : CalculatorInputs)
    (h : i.currentAge ≤ i.retirementAge) (y : ℕ)
    (hy : (y : ℤ) ≤ i.retirementAge - i.currentAge) :
    ((calculateProjections i).yearlyData.getD y default).salary =
        i.currentSalary * (1 + i.salaryGrowthRate) ^ y ∧
    ((calculateProjections i).yearlyData.getD y default).monthlyContribution =
        i.monthlyContribution * (1 + i.contributionIncreaseRate) ^ y ∧
    ((calculateProjections i).yearlyData.getD y default).employerMatch =
        calculateEmployerMatch
          (((calculateProjections i).yearlyData.getD y default).salary / 12)
          (((calculateProjections i).yearlyData.getD y default).monthlyContribution)
          i.employerMatchPercent i.employerMatchLimit ∧
    ((calculateProjections i).yearlyData.getD y default).totalContribution =
        12 * (((calculateProjections i).yearlyData.getD y default).monthlyContribution +
          ((calculateProjections i).yearlyData.getD y default).employerMatch) ∧
    ((calculateProjections i).yearlyData.getD y default).interestEarned =
        (if y = 0 then i.currentSavings
         else ((calculateProjections i).yearlyData.getD (y - 1) default).totalSavings) *
          i.expectedReturn ∧
    ((calculateProjections i).yearlyData.getD y default).totalSavings =
        (if y = 0 then i.currentSavings
         else ((calculateProjections i).yearlyData.getD (y - 1) default).totalSavings) +
          ((calculateProjections i).yearlyData.getD y default).totalContribution +
          ((calculateProjections i).yearlyData.getD y default).interestEarned := by
  have hcnt : y < iterCount i := by
    rw [iterCount_eq i h]; omega
  have hget : (calculateProjections i).yearlyData.getD y default = projEntry i y := by
    rw [calculateProjections_yearlyData]
    exact getD_range_map _ _ _ _ hcnt
  have hopen : (if y = 0 then i.currentSavings
      else ((calculateProjections i).yearlyData.getD (y - 1) default).totalSavings) =
      totalSavingsAfter i y := by
    cases y with
    | zero => rfl
    | succ n =>
      have hc : n < iterCount i := by omega
      rw [if_neg (Nat.succ_ne_zero n), Nat.succ_sub_one, calculateProjections_yearlyData,
        getD_range_map _ _ _ _ hc]
      rfl
  refine ⟨?_, ?_, ?_, ?_, ?_, ?_⟩
  · rw [hget]; exact salaryAt_eq i y
  · rw [hget]; exact monthlyContributionAt_eq i y
  · rw [hget]; rfl
  · rw [hget]
    show (monthlyContributionAt i y + monthlyEmployerMatchAt i y) * 12 =
      12 * (monthlyContributionAt i y + monthlyEmployerMatchAt i y)
    ring
  · rw [hget, hopen]; rfl
  · rw [hget, hopen]; rfl

/-- Witness for C1 at a concrete input record and year index 1. -/
theorem projection_reference_recurrence_witness :
    sampleInputs2.currentAge ≤ sampleInputs2.retirementAge ∧
    ((1 : ℕ) : ℤ) ≤ sampleInputs2.retirementAge - sampleInputs2.currentAge ∧
    (((calculateProjections sampleInputs2).yearlyData.getD 1 default).salary =
        sampleInputs2.currentSalary * (1 + sampleInputs2.salaryGrowthRate) ^ (1 : ℕ) ∧
    ((calculateProjections sampleInputs2).yearlyData.getD 1 default).monthlyContribution =
        sampleInputs2.monthlyContribution *
          (1 + sampleInputs2.contributionIncreaseRate) ^ (1 : ℕ) ∧
    ((calculateProjections sampleInputs2).yearlyData.getD 1 default).employerMatch =
        calculateEmployerMatch
          (((calculateProjections sampleInputs2).yearlyData.getD 1 default).salary / 12)
          (((calculateProjections sampleInputs2).yearlyData.getD 1 default).monthlyContribution)
          sampleInputs2.employerMatchPercent sampleInputs2.employerMatchLimit ∧
    ((calculateProjections sampleInputs2).yearlyData.getD 1 default).totalContribution =
        12 * (((calculateProjections sampleInputs2).yearlyData.getD 1 default).monthlyContribution +
          ((calculateProjections sampleInputs2).yearlyData.getD 1 default).employerMatch) ∧
    ((calculateProjections sampleInputs2).yearlyData.getD 1 default).interestEarned =
        (if (1 : ℕ) = 0 then sampleInputs2.currentSavings
         else ((calculateProjections sampleInputs2).yearlyData.getD (1 - 1) default).totalSavings) *
          sampleInputs2.expectedReturn ∧
    ((calculateProjections sampleInputs2).yearlyData.getD 1 default).totalSavings =
        (if (1 : ℕ) = 0 then sampleInputs2.currentSavings
         else ((calculateProjections sampleInputs2).yearlyData.getD (1 - 1) default).totalSavings) +
          ((calculateProjections sampleInputs2).yearlyData.getD 1 default).totalContribution +
          ((calculateProjections sampleInputs2).yearlyData.getD 1 default).interestEarned) :=
  ⟨by norm_num [sampleInputs2, sampleInputs], by norm_num [sampleInputs2, sampleInputs],
   projection_reference_recurrence sampleInputs2 (by norm_num [sampleInputs2, sampleInputs]) 1
     (by norm_num [sampleInputs2, sampleInputs])⟩

/-- C10: the scalar summaries agree with the yearly sequence: the terminal
`retirementValue` is the last entry's `totalSavings`, and the running
totals are the sums of the per-entry contribution and interest fields. -/
theorem summary_consistent_with_yearlyData (i : CalculatorInputs)
    (h : i.currentAge ≤ i.retirementAge) :
    (calculateProjections i).retirementValue =
      ((calculateProjections i).yearlyData.getD
        ((calculateProjections i).yearlyData.length - 1) default).totalSavings ∧
    (calculateProjections i).totalContributions =
      ((calculateProjections i).yearlyData.map YearlyProjection.totalContribution).sum ∧
    (calculateProjections i).totalInterestEarned =
      ((calculateProjections i).yearlyData.map YearlyProjection.interestEarned).sum := by
  have hlen : (calculateProjections i).yearlyData.length = iterCount i := by
    rw [calculateProjections_yearlyData, List.length_map, List.length_range]
  have hpos : 1 ≤ iterCount i := by
    rw [iterCount_eq i h]; omega
  refine ⟨?_, ?_, ?_⟩
  · obtain ⟨k, hk⟩ : ∃ k, iterCount i = k + 1 := ⟨iterCount i - 1, by omega⟩
    rw [calculateProjections_retirementValue, hlen, calculateProjections_yearlyData, hk]
    simp only [Nat.add_sub_cancel]
    rw [getD_range_map _ _ _ _ (by omega)]
    rfl
  · rw [calculateProjections_totalContributions, calculateProjections_yearlyData,
      List.map_map]
    rw [show YearlyProjection.totalContribution ∘ projEntry i = annualContributionAt i from
      funext fun y => rfl]
  · rw [calculateProjections_totalInterestEarned, calculateProjections_yearlyData,
      List.map_map]
    rw [show YearlyProjection.interestEarned ∘ projEntry i =
        (fun year => totalSavingsAfter i year * i.expectedReturn) from funext fun y => rfl]

/-- Witness for C10 at a concrete input record. -/
theorem summary_consistent_with_yearlyData_witness :
    sampleInputs2.currentAge ≤ sampleInputs2.retirementAge ∧
    ((calculateProjections sampleInputs2).retirementValue =
      ((calculateProjections sampleInputs2).yearlyData.getD
        ((calculateProjections sampleInputs2).yearlyData.length - 1) default).totalSavings ∧
    (calculateProjections sampleInputs2).totalContributions =
      ((calculateProjections sampleInputs2).yearlyData.map
        YearlyProjection.totalContribution).sum ∧
    (calculateProjections sampleInputs2).totalInterestEarned =
      ((calculateProjections sampleInputs2).yearlyData.map
        YearlyProjection.interestEarned).sum) :=
  ⟨by norm_num [sampleInputs2, sampleInputs],
   summary_consistent_with_yearlyData sampleInputs2 (by norm_num [sampleInputs2, sampleInputs])⟩

/-- C5 counterexample: with a zero real monthly rate (`annualReturn =
inflationRate`) and savings already above the target, the code divides the
(negative) gap across the months and returns a negative number, not 0. -/
theorem calculateRequiredSavings_zero_rate_counterexample :
    (0 : ℤ) < 1 ∧
    (100 : ℚ) ≤ 200 * (1 + ((1 + 0) / (1 + 0) - 1) / 12) ^ ((1 : ℤ) * 12) ∧
    calculateRequiredSavings 100 200 0 1 0 < 0 := by
  refine ⟨by norm_num, by norm_num, ?_⟩
  norm_num [calculateRequiredSavings]

/-- C5 (amended): whenever the real monthly rate is nonzero and the current
savings compounded monthly at that rate over `years * 12` months already
meet or exceed the target, `calculateRequiredSavings` returns exactly 0.
(In the zero-rate branch the code instead returns
`(target - current) / months`, which is negative when savings exceed the
target.) -/
theorem calculateRequiredSavings_met_target_zero
    (targetAmount currentSavings annualReturn inflationRate : ℚ) (years : ℤ)
    (hy : 0 < years)
    (hmr : ((1 + annualReturn) / (1 + inflationRate) - 1) / 12 ≠ 0)
    (hge : targetAmount ≤ currentSavings *
      (1 + ((1 + annualReturn) / (1 + inflationRate) - 1) / 12) ^ (years * 12)) :
    calculateRequiredSavings targetAmount currentSavings annualReturn years inflationRate = 0 := by
  simp only [calculateRequiredSavings]
  rw [if_neg hmr, if_pos (sub_nonpos.mpr hge)]

/-- Witness for the amended C5 at concrete values. -/
theorem calculateRequiredSavings_met_target_zero_witness :
    (0 : ℤ) < 1 ∧
    ((1 + (0.1 : ℚ)) / (1 + 0) - 1) / 12 ≠ 0 ∧
    (100 : ℚ) ≤ 200 * (1 + ((1 + (0.1 : ℚ)) / (1 + 0) - 1) / 12) ^ ((1 : ℤ) * 12) ∧
    calculateRequiredSavings 100 200 0.1 1 0 = 0 :=
  ⟨by norm_num, by norm_num, by norm_num,
   calculateRequiredSavings_met_target_zero 100 200 0.1 0 1 (by norm_num) (by norm_num)
     (by norm_num)⟩

/-- C4 counterexample: the round trip is not `P` (nor close to it for
large rates): at `P = 1, r = 1, n = 1` it exceeds `1.3065`, because
`futureValue` compounds monthly while `presentValue` discounts annually. -/
theorem presentValue_futureValue_roundtrip_counterexample :
    presentValue (futureValue 1 0 1 1) 1 1 ≠ 1 ∧
    (13065 / 10000 : ℚ) < presentValue (futureValue 1 0 1 1) 1 1 := by
  constructor <;> norm_num [presentValue, futureValue]

/-- C4 (amended): for `r > 0`, `P > 0` and `n ≥ 0` the round trip equals
`P * ((1 + r/12)^12 / (1 + r))^n` exactly; since monthly compounding
dominates annual discounting this is at least `P` (equal only up to the
compounding mismatch factor), never below it. -/
theorem presentValue_futureValue_roundtrip_amended (P r : ℚ) (n : ℕ)
    (hr : 0 < r) (hP : 0 < P) :
    presentValue (futureValue P 0 r (n : ℤ)) r (n : ℤ) =
      P * ((1 + r / 12) ^ 12 / (1 + r)) ^ n ∧
    P ≤ presentValue (futureValue P 0 r (n : ℤ)) r (n : ℤ) := by
  have h1r : (0 : ℚ) < 1 + r := by linarith
  have hrne : r ≠ 0 := ne_of_gt hr
  have hmr : r / 12 ≠ 0 := div_ne_zero hrne (by norm_num)
  have hfv : futureValue P 0 r (n : ℤ) = P * (1 + r / 12) ^ ((n : ℤ) * 12) := by
    simp only [futureValue]
    rw [if_neg hmr, zero_mul, add_zero]
  have hpv : presentValue (futureValue P 0 r (n : ℤ)) r (n : ℤ) =
      P * (1 + r / 12) ^ ((n : ℤ) * 12) / (1 + r) ^ (n : ℤ) := by
    simp only [presentValue]
    rw [if_neg hrne, hfv]
  have hpow : (1 + r / 12 : ℚ) ^ ((n : ℤ) * 12) = ((1 + r / 12) ^ 12) ^ n := by
    rw [show (n : ℤ) * 12 = ((12 * n : ℕ) : ℤ) by push_cast; ring, zpow_natCast, pow_mul]
  have hzn : (1 + r : ℚ) ^ ((n : ℤ)) = (1 + r) ^ n := zpow_natCast _ n
  have heq : presentValue (futureValue P 0 r (n : ℤ)) r (n : ℤ) =
      P * ((1 + r / 12) ^ 12 / (1 + r)) ^ n := by
    rw [hpv, hpow, hzn, div_pow, mul_div_assoc]
  have hber : (1 + r : ℚ) ≤ (1 + r / 12) ^ 12 := by
    have h := one_add_mul_le_pow (a := r / 12) (by linarith) 12
    calc (1 : ℚ) + r = 1 + (12 : ℕ) * (r / 12) := by push_cast; ring
    _ ≤ (1 + r / 12) ^ 12 := h
  have hc1 : (1 : ℚ) ≤ (1 + r / 12) ^ 12 / (1 + r) := (one_le_div h1r).mpr hber
  refine ⟨heq, ?_⟩
  rw [heq]
  have hcn : (1 : ℚ) ≤ ((1 + r / 12) ^ 12 / (1 + r)) ^ n := one_le_pow₀ hc1
  nlinarith

/-- Witness for the amended C4 at concrete values. -/
theorem presentValue_futureValue_roundtrip_amended_witness :
    (0 : ℚ) < 1 ∧ (0 : ℚ) < 2 ∧
    presentValue (futureValue 2 0 1 ((1 : ℕ) : ℤ)) 1 ((1 : ℕ) : ℤ) =
      2 * ((1 + 1 / 12) ^ 12 / (1 + 1)) ^ (1 : ℕ) ∧
    2 ≤ presentValue (futureValue 2 0 1 ((1 : ℕ) : ℤ)) 1 ((1 : ℕ) : ℤ) :=
  ⟨by norm_num, by norm_num,
   (presentValue_futureValue_roundtrip_amended 2 1 1 (by norm_num) (by norm_num)).1,
   (presentValue_futureValue_roundtrip_amended 2 1 1 (by norm_num) (by norm_num)).2⟩

/-- C8 counterexample: at zero earnings the primary insurance amount is 0,
so claiming early yields the same (zero) benefit, not a strictly smaller
one. -/
theorem calculateSocialSecurity_zero_earnings_counterexample :
    (62 : ℚ) < 67 ∧
    ¬ calculateSocialSecurity 0 67 62 < calculateSocialSecurity 0 67 67 := by
  constructor
  · norm_num
  · norm_num [calculateSocialSecurity]

/-- C8 (amended): for strictly positive earnings `E`, the benefit is
strictly below the full-retirement-age benefit when claiming early and
strictly above it when claiming late (the claim fails only when the
primary insurance amount vanishes, e.g. at `E = 0`). -/
theorem calculateSocialSecurity_claiming_monotone (E fra claimAge : ℚ) (hE : 0 < E) :
    (claimAge < fra →
      calculateSocialSecurity E fra claimAge < calculateSocialSecurity E fra fra) ∧
    (fra < claimAge →
      calculateSocialSecurity E fra fra < calculateSocialSecurity E fra claimAge) := by
  have hpia : 0 < (if E ≤ (1174 : ℚ) then E * 0.9
      else if E ≤ 7078 then 1174 * 0.9 + (E - 1174) * 0.32
      else 1174 * 0.9 + (7078 - 1174) * 0.32 + (E - 7078) * 0.15) := by
    split_ifs with h1 h2
    · nlinarith
    · nlinarith
    · nlinarith
  have hfull : calculateSocialSecurity E fra fra = (if E ≤ (1174 : ℚ) then E * 0.9
      else if E ≤ 7078 then 1174 * 0.9 + (E - 1174) * 0.32
      else 1174 * 0.9 + (7078 - 1174) * 0.32 + (E - 7078) * 0.15) := by
    simp only [calculateSocialSecurity, sub_self, zero_mul, lt_self_iff_false, if_false]
  constructor
  · intro hlt
    have hme : 0 < (fra - claimAge) * 12 := by nlinarith
    have heval : calculateSocialSecurity E fra claimAge =
        (if E ≤ (1174 : ℚ) then E * 0.9
          else if E ≤ 7078 then 1174 * 0.9 + (E - 1174) * 0.32
          else 1174 * 0.9 + (7078 - 1174) * 0.32 + (E - 7078) * 0.15) *
        (1 - (min 36 ((fra - claimAge) * 12) * 0.00555 +
          max 0 ((fra - claimAge) * 12 - 36) * 0.00417)) := by
      simp only [calculateSocialSecurity]
      rw [if_pos hme]
    rw [heval, hfull]
    have hred : 0 < min 36 ((fra - claimAge) * 12) * 0.00555 +
        max 0 ((fra - claimAge) * 12 - 36) * 0.00417 := by
      have h1 : (0 : ℚ) < min 36 ((fra - claimAge) * 12) := lt_min (by norm_num) hme
      have h2 : (0 : ℚ) ≤ max 0 ((fra - claimAge) * 12 - 36) := le_max_left _ _
      nlinarith
    nlinarith [mul_pos hpia hred]
  · intro hlt
    have hml : 0 < (claimAge - fra) * 12 := by nlinarith
    have hme : ¬ 0 < (fra - claimAge) * 12 := by nlinarith
    have heval : calculateSocialSecurity E fra claimAge =
        (if E ≤ (1174 : ℚ) then E * 0.9
          else if E ≤ 7078 then 1174 * 0.9 + (E - 1174) * 0.32
          else 1174 * 0.9 + (7078 - 1174) * 0.32 + (E - 7078) * 0.15) *
        (1 + (claimAge - fra) * 12 * 0.00667) := by
      simp only [calculateSocialSecurity]
      rw [if_neg hme, if_pos hml]
    rw [heval, hfull]
    have hinc : (0 : ℚ) < (claimAge - fra) * 12 * 0.00667 := by nlinarith
    nlinarith [mul_pos hpia hinc]

/-- Witness for the amended C8 at concrete values. -/
theorem calculateSocialSecurity_claiming_monotone_witness :
    (0 : ℚ) < 1000 ∧ (62 : ℚ) < 67 ∧ (67 : ℚ) < 70 ∧
    calculateSocialSecurity 1000 67 62 < calculateSocialSecurity 1000 67 67 ∧
    calculateSocialSecurity 1000 67 67 < calculateSocialSecurity 1000 67 70 :=
  ⟨by norm_num, by norm_num, by norm_num,
   (calculateSocialSecurity_claiming_monotone 1000 67 62 (by norm_num)).1 (by norm_num),
   (calculateSocialSecurity_claiming_monotone 1000 67 70 (by norm_num)).2 (by norm_num)⟩

lemma annualContributionAt_nonneg (i : CalculatorInputs)
    (hsal : 0 ≤ i.currentSalary) (hmc : 0 ≤ i.monthlyContribution)
    (hg : -1 ≤ i.salaryGrowthRate) (hcir : -1 ≤ i.contributionIncreaseRate)
    (hemp : 0 ≤ i.employerMatchPercent) (heml : 0 ≤ i.employerMatchLimit)
    (y : ℕ) : 0 ≤ annualContributionAt i y := by
  have hmcy : 0 ≤ monthlyContributionAt i y := by
    rw [monthlyContributionAt_eq]
    exact mul_nonneg hmc (pow_nonneg (by linarith) y)
  have hsaly : 0 ≤ salaryAt i y := by
    rw [salaryAt_eq]
    exact mul_nonneg hsal (pow_nonneg (by linarith) y)
  have hmatch : 0 ≤ monthlyEmployerMatchAt i y := by
    unfold monthlyEmployerMatchAt calculateEmployerMatch
    exact le_min (mul_nonneg hmcy hemp)
      (mul_nonneg (div_nonneg hsaly (by norm_num)) heml)
  unfold annualContributionAt
  exact mul_nonneg (add_nonneg hmcy hmatch) (by norm_num)

lemma totalSavingsAfter_lt_of_return_lt (i₁ i₂ : CalculatorInputs)
    (hC : ∀ y, annualContributionAt i₁ y = annualContributionAt i₂ y)
    (hCpos : ∀ y, 0 ≤ annualContributionAt i₁ y)
    (hS : i₁.currentSavings = i₂.currentSavings)
    (hSpos : 0 < i₁.currentSavings)
    (hr₁ : 0 < 1 + i₁.expectedReturn)
    (hrlt : i₁.expectedReturn < i₂.expectedReturn) :
    ∀ k, 0 < totalSavingsAfter i₁ k ∧
      (1 ≤ k → totalSavingsAfter i₁ k < totalSavingsAfter i₂ k) := by
  intro k
  induction k with
  | zero => exact ⟨hSpos, fun hk => absurd hk (by omega)⟩
  | succ y ih =>
    obtain ⟨hpos, hlt⟩ := ih
    have hle : totalSavingsAfter i₁ y ≤ totalSavingsAfter i₂ y := by
      cases y with
      | zero =>
        rw [show totalSavingsAfter i₁ 0 = i₁.currentSavings from rfl,
          show totalSavingsAfter i₂ 0 = i₂.currentSavings from rfl, hS]
      | succ m => exact le_of_lt (hlt (by omega))
    refine ⟨?_, fun _ => ?_⟩
    · rw [totalSavingsAfter_succ]
      nlinarith [hCpos y, mul_pos hpos hr₁]
    · rw [totalSavingsAfter_succ, totalSavingsAfter_succ, ← hC y]
      nlinarith [mul_nonneg (sub_nonneg.mpr hle)
          (by linarith : (0 : ℚ) ≤ 1 + i₂.expectedReturn),
        mul_pos hpos (sub_pos.mpr hrlt)]

lemma retirementValue_lt_of_return_lt (i : CalculatorInputs) (r₁ r₂ f₁ f₂ : ℚ)
    (h : i.currentAge ≤ i.retirementAge)
    (hsav : 0 < i.currentSavings) (hsal : 0 < i.currentSalary)
    (hmc : 0 < i.monthlyContribution)
    (hg : -1 ≤ i.salaryGrowthRate) (hcir : -1 ≤ i.contributionIncreaseRate)
    (hemp : 0 ≤ i.employerMatchPercent) (heml : 0 ≤ i.employerMatchLimit)
    (hr₁ : 0 < 1 + r₁) (hrlt : r₁ < r₂) :
    (calculateProjections { i with expectedReturn := r₁, inflationRate := f₁ }).retirementValue <
      (calculateProjections { i with expectedReturn := r₂, inflationRate := f₂ }).retirementValue := by
  rw [calculateProjections_retirementValue, calculateProjections_retirementValue]
  have hk1 : 1 ≤ iterCount { i with expectedReturn := r₁, inflationRate := f₁ } := by
    rw [iterCount_eq { i with expectedReturn := r₁, inflationRate := f₁ } h]
    omega
  have key := totalSavingsAfter_lt_of_return_lt
    { i with expectedReturn := r₁, inflationRate := f₁ }
    { i with expectedReturn := r₂, inflationRate := f₂ }
    (fun y => rfl)
    (fun y => annualContributionAt_nonneg _ (le_of_lt hsal) (le_of_lt hmc) hg hcir hemp heml y)
    rfl hsav hr₁ hrlt
  exact (key (iterCount { i with expectedReturn := r₁, inflationRate := f₁ })).2 hk1

/-- Input record showing the scenario ordering can fail inside the claim's
notion of economic sanity: a hugely negative `employerMatchLimit` makes the
yearly contributions very negative, and a higher return then amplifies the
losses. -/
def badScenarioInputs : CalculatorInputs :=
  { currentAge := 30, retirementAge := 31, lifeExpectancy := 60,
    currentSalary := 1, salaryGrowthRate := 0, currentSavings := 1,
    monthlyContribution := 1, contributionIncreaseRate := 0,
    employerMatchPercent := 0, employerMatchLimit := -1000000,
    expectedReturn := 0.07, inflationRate := 0.03, taxRate := 0,
    retirementTaxRate := 0, desiredRetirementIncome := 0,
    socialSecurityBenefit := 0 }

/-- C7 counterexample: `badScenarioInputs` satisfies the claim's sanity
hypotheses (retirement age above current age and strictly positive savings,
salary and contribution), yet the conservative terminal balance is not
below the moderate one. -/
theorem calculateScenarios_not_increasing_counterexample :
    badScenarioInputs.currentAge ≤ badScenarioInputs.retirementAge ∧
    0 < badScenarioInputs.currentSavings ∧
    0 < badScenarioInputs.currentSalary ∧
    0 < badScenarioInputs.monthlyContribution ∧
    ¬ (calculateScenarios badScenarioInputs).conservative.retirementValue <
        (calculateScenarios badScenarioInputs).moderate.retirementValue := by
  refine ⟨by norm_num [badScenarioInputs], by norm_num [badScenarioInputs],
    by norm_num [badScenarioInputs], by norm_num [badScenarioInputs], ?_⟩
  rw [show (calculateScenarios badScenarioInputs).conservative =
      calculateProjections { badScenarioInputs with
        expectedReturn := (0.04 : ℚ), inflationRate := (0.035 : ℚ) } from rfl,
    show (calculateScenarios badScenarioInputs).moderate =
      calculateProjections { badScenarioInputs with
        expectedReturn := (0.07 : ℚ), inflationRate := (0.03 : ℚ) } from rfl,
    calculateProjections_retirementValue, calculateProjections_retirementValue,
    show iterCount { badScenarioInputs with
        expectedReturn := (0.04 : ℚ), inflationRate := (0.035 : ℚ) } = 2 from by
      norm_num [iterCount, yearsToRetirement, badScenarioInputs],
    show iterCount { badScenarioInputs with
        expectedReturn := (0.07 : ℚ), inflationRate := (0.03 : ℚ) } = 2 from by
      norm_num [iterCount, yearsToRetirement, badScenarioInputs],
    totalSavingsAfter_two, totalSavingsAfter_two,
    totalSavingsAfter_one, totalSavingsAfter_one]
  norm_num [annualContributionAt, monthlyEmployerMatchAt, monthlyContributionAt,
    salaryAt, calculateEmployerMatch, salaryProjection, badScenarioInputs, min_def]

/-- C7 (amended): the scenario terminal balances are strictly increasing
(conservative < moderate < aggressive) for inputs that are economically
sane in the stronger sense: retirement age at or above current age,
strictly positive savings, salary and monthly contribution, growth and
contribution-increase rates at least `-1`, and non-negative employer match
percent and limit (the extra conditions keep every year's total
contribution non-negative, which the counterexample violates). -/
theorem calculateScenarios_strictly_increasing (i : CalculatorInputs)
    (h : i.currentAge ≤ i.retirementAge)
    (hsav : 0 < i.currentSavings) (hsal : 0 < i.currentSalary)
    (hmc : 0 < i.monthlyContribution)
    (hg : -1 ≤ i.salaryGrowthRate) (hcir : -1 ≤ i.contributionIncreaseRate)
    (hemp : 0 ≤ i.employerMatchPercent) (heml : 0 ≤ i.employerMatchLimit) :
    (calculateScenarios i).conservative.retirementValue <
      (calculateScenarios i).moderate.retirementValue ∧
    (calculateScenarios i).moderate.retirementValue <
      (calculateScenarios i).aggressive.retirementValue :=
  ⟨retirementValue_lt_of_return_lt i 0.04 0.07 0.035 0.03 h hsav hsal hmc hg hcir hemp heml
      (by norm_num) (by norm_num),
   retirementValue_lt_of_return_lt i 0.07 0.10 0.03 0.025 h hsav hsal hmc hg hcir hemp heml
      (by norm_num) (by norm_num)⟩

/-- Witness for the amended C7 at a concrete input record. -/
theorem calculateScenarios_strictly_increasing_witness :
    sampleInputs2.currentAge ≤ sampleInputs2.retirementAge ∧
    0 < sampleInputs2.currentSavings ∧ 0 < sampleInputs2.currentSalary ∧
    0 < sampleInputs2.monthlyContribution ∧
    ((calculateScenarios sampleInputs2).conservative.retirementValue <
      (calculateScenarios sampleInputs2).moderate.retirementValue ∧
    (calculateScenarios sampleInputs2).moderate.retirementValue <
      (calculateScenarios sampleInputs2).aggressive.retirementValue) :=
  ⟨by norm_num [sampleInputs2, sampleInputs], by norm_num [sampleInputs2, sampleInputs],
   by norm_num [sampleInputs2, sampleInputs], by norm_num [sampleInputs2, sampleInputs],
   calculateScenarios_strictly_increasing sampleInputs2
     (by norm_num [sampleInputs2, sampleInputs]) (by norm_num [sampleInputs2, sampleInputs])
     (by norm_num [sampleInputs2, sampleInputs]) (by norm_num [sampleInputs2, sampleInputs])
     (by norm_num [sampleInputs2, sampleInputs]) (by norm_num [sampleInputs2, sampleInputs])
     (by norm_num [sampleInputs2, sampleInputs]) (by norm_num [sampleInputs2, sampleInputs])⟩

lemma monteCarloSimulation_median (i : CalculatorInputs) (draws : List ℚ) :
    (monteCarloSimulation i draws).median =
      ((draws.map (monteCarloTrial i)).insertionSort (· ≤ ·)).getD
        (percentileIndex draws.length 0.5) 0 := rfl

lemma monteCarloSimulation_percentile25 (i : CalculatorInputs) (draws : List ℚ) :
    (monteCarloSimulation i draws).percentile25 =
      ((draws.map (monteCarloTrial i)).insertionSort (· ≤ ·)).getD
        (percentileIndex draws.length 0.25) 0 := rfl

lemma monteCarloSimulation_percentile75 (i : CalculatorInputs) (draws : List ℚ) :
    (monteCarloSimulation i draws).percentile75 =
      ((draws.map (monteCarloTrial i)).insertionSort (· ≤ ·)).getD
        (percentileIndex draws.length 0.75) 0 := rfl

lemma monteCarloSimulation_percentile95 (i : CalculatorInputs) (draws : List ℚ) :
    (monteCarloSimulation i draws).percentile95 =
      ((draws.map (monteCarloTrial i)).insertionSort (· ≤ ·)).getD
        (percentileIndex draws.length 0.95) 0 := rfl

lemma monteCarloSimulation_successRate (i : CalculatorInputs) (draws : List ℚ) :
    (monteCarloSimulation i draws).successRate =
      (((((draws.map (monteCarloTrial i)).insertionSort (· ≤ ·)).filter
        (fun value => i.desiredRetirementIncome * 12 *
          (((i.lifeExpectancy - i.retirementAge : ℤ)) : ℚ) ≤ value)).length : ℚ)) /
        (draws.length : ℚ) := rfl

lemma percentileIndex_mono (N : ℕ) (p q : ℚ) (hpq : p ≤ q) :
    percentileIndex N p ≤ percentileIndex N q := by
  unfold percentileIndex
  have h : ⌊(N : ℚ) * p⌋ ≤ ⌊(N : ℚ) * q⌋ :=
    Int.floor_le_floor (mul_le_mul_of_nonneg_left hpq (Nat.cast_nonneg N))
  omega

lemma percentileIndex_lt (N : ℕ) (p : ℚ) (hp : p < 1) (hN : 0 < N) :
    percentileIndex N p < N := by
  unfold percentileIndex
  have h1 : ⌊(N : ℚ) * p⌋ < (N : ℤ) := by
    rw [Int.floor_lt]
    push_cast
    nlinarith [(Nat.cast_pos (α := ℚ)).mpr hN]
  omega

lemma getD_sorted_mono (l : List ℚ) (hl : l.Sorted (· ≤ ·)) (a b : ℕ)
    (hab : a ≤ b) (hb : b < l.length) : l.getD a 0 ≤ l.getD b 0 := by
  rw [List.getD_eq_getElem l 0 (by omega), List.getD_eq_getElem l 0 hb]
  have h := hl.rel_get_of_le (a := ⟨a, by omega⟩) (b := ⟨b, hb⟩) (Fin.mk_le_mk.mpr hab)
  simpa [List.get_eq_getElem] using h

/-- C6: for at least 4 trials and any sequence of uniform draws, the Monte
Carlo percentiles (taken by direct index `floor(N*p)` into the ascending
sorted trial balances) are ordered `p25 ≤ median ≤ p75 ≤ p95`, and the
success rate (fraction of trials with terminal balance at least the
income-equivalent target) lies in `[0, 1]`. -/
theorem monteCarloSimulation_summary_wellformed (i : CalculatorInputs)
    (h : i.currentAge ≤ i.retirementAge) (draws : List ℚ)
    (hN : 4 ≤ draws.length)
    (hdraws : ∀ u ∈ draws, 0 ≤ u ∧ u < 1) :
    (monteCarloSimulation i draws).percentile25 ≤ (monteCarloSimulation i draws).median ∧
    (monteCarloSimulation i draws).median ≤ (monteCarloSimulation i draws).percentile75 ∧
    (monteCarloSimulation i draws).percentile75 ≤ (monteCarloSimulation i draws).percentile95 ∧
    0 ≤ (monteCarloSimulation i draws).successRate ∧
    (monteCarloSimulation i draws).successRate ≤ 1 := by
  have hslen : ((draws.map (monteCarloTrial i)).insertionSort (· ≤ ·)).length = draws.length := by
    rw [List.length_insertionSort, List.length_map]
  have hsorted : ((draws.map (monteCarloTrial i)).insertionSort (· ≤ ·)).Sorted (· ≤ ·) :=
    List.sorted_insertionSort _ _
  have hNpos : 0 < draws.length := by omega
  have h2550 : percentileIndex draws.length 0.25 ≤ percentileIndex draws.length 0.5 :=
    percentileIndex_mono _ _ _ (by norm_num)
  have h5075 : percentileIndex draws.length 0.5 ≤ percentileIndex draws.length 0.75 :=
    percentileIndex_mono _ _ _ (by norm_num)
  have h7595 : percentileIndex draws.length 0.75 ≤ percentileIndex draws.length 0.95 :=
    percentileIndex_mono _ _ _ (by norm_num)
  have h95N : percentileIndex draws.length 0.95 < draws.length :=
    percentileIndex_lt _ _ (by norm_num) hNpos
  refine ⟨?_, ?_, ?_, ?_, ?_⟩
  · rw [monteCarloSimulation_percentile25, monteCarloSimulation_median]
    exact getD_sorted_mono _ hsorted _ _ h2550 (by rw [hslen]; omega)
  · rw [monteCarloSimulation_median, monteCarloSimulation_percentile75]
    exact getD_sorted_mono _ hsorted _ _ h5075 (by rw [hslen]; omega)
  · rw [monteCarloSimulation_percentile75, monteCarloSimulation_percentile95]
    exact getD_sorted_mono _ hsorted _ _ h7595 (by rw [hslen]; omega)
  · rw [monteCarloSimulation_successRate]
    exact div_nonneg (Nat.cast_nonneg _) (Nat.cast_nonneg _)
  · rw [monteCarloSimulation_successRate]
    rw [div_le_one (by exact_mod_cast hNpos)]
    have hcount := List.length_filter_le
      (fun value => decide (i.desiredRetirementIncome * 12 *
        (((i.lifeExpectancy - i.retirementAge : ℤ)) : ℚ) ≤ value))
      ((draws.map (monteCarloTrial i)).insertionSort (· ≤ ·))
    rw [hslen] at hcount
    exact_mod_cast hcount

/-- Witness for C6 at a concrete input record and four draws. -/
theorem monteCarloSimulation_summary_wellformed_witness :
    sampleInputs.currentAge ≤ sampleInputs.retirementAge ∧
    4 ≤ ([0.5, 0.5, 0.5, 0.5] : List ℚ).length ∧
    (∀ u ∈ ([0.5, 0.5, 0.5, 0.5] : List ℚ), 0 ≤ u ∧ u < 1) ∧
    ((monteCarloSimulation sampleInputs [0.5, 0.5, 0.5, 0.5]).percentile25 ≤
        (monteCarloSimulation sampleInputs [0.5, 0.5, 0.5, 0.5]).median ∧
      (monteCarloSimulation sampleInputs [0.5, 0.5, 0.5, 0.5]).median ≤
        (monteCarloSimulation sampleInputs [0.5, 0.5, 0.5, 0.5]).percentile75 ∧
      (monteCarloSimulation sampleInputs [0.5, 0.5, 0.5, 0.5]).percentile75 ≤
        (monteCarloSimulation sampleInputs [0.5, 0.5, 0.5, 0.5]).percentile95 ∧
      0 ≤ (monteCarloSimulation sampleInputs [0.5, 0.5, 0.5, 0.5]).successRate ∧
      (monteCarloSimulation sampleInputs [0.5, 0.5, 0.5, 0.5]).successRate ≤ 1) :=
  ⟨by norm_num [sampleInputs], by norm_num, by norm_num,
   monteCarloSimulation_summary_wellformed sampleInputs (by norm_num [sampleInputs])
     [0.5, 0.5, 0.5, 0.5] (by norm_num) (by norm_num)⟩
